import Mathlib

/-!
# Timeline dashboard (`src/js/timeline.js`)

A shallow embedding of the polling loop `loadTimeline` and of the claim
submission form handlers registered by `initializeTimeline`.

Modelling conventions.

* A JavaScript string is the list of its UTF-16 code units (`JSString`), so
  `length`, `substring(0, n)` and `trim()` count what JavaScript counts.
* The page is the record `Page`: the module variable `currentTimelineItemIds`
  and the observable state of the DOM elements the script holds handles to.
  All of those elements exist (the script runs on `timeline.html`), so the early
  returns on lines 23 and 90 are not taken.
* Calls to the outside world (`fetch`, `showToast`, `console.error`,
  `createTimelineCard`, `setTimeout`) are collected in an `Effects` record that each
  handler returns next to the new page state.  What `fetch` answers is an
  argument of the handler.
* A handler runs from start to end without another handler running in between.
-/

namespace Timeline

/-! ## Strings -/

/-- A JavaScript string, as the sequence of its UTF-16 code units. -/
abbrev JSString := List Nat

/-- The code units of a literal of the script (every literal is ASCII). -/
def js (s : String) : JSString := s.toList.map Char.toNat

/-- The string conversion of a non-negative integer inside a template literal. -/
def numToString (n : Nat) : JSString := js (toString n)

/-- Code units that `String.prototype.trim` strips: ECMAScript `WhiteSpace` and
`LineTerminator`. -/
def isTrimmable (c : Nat) : Bool :=
  c == 0x9 || c == 0xA || c == 0xB || c == 0xC || c == 0xD || c == 0x20 || c == 0xA0 ||
  c == 0x1680 || (0x2000 ≤ c && c ≤ 0x200A) || c == 0x2028 || c == 0x2029 ||
  c == 0x202F || c == 0x205F || c == 0x3000 || c == 0xFEFF

/-- The method `String.prototype.trim`. -/
def trim (s : JSString) : JSString :=
  ((s.dropWhile isTrimmable).reverse.dropWhile isTrimmable).reverse

/-- The call `s.substring(0, n)`. -/
def substring0 (s : JSString) (n : Nat) : JSString := s.take n

/-! ## Data model -/

/-- A timeline item of the response; only `id`, `status` and `summary` are read here. -/
structure Item where
  id : JSString
  status : JSString
  summary : JSString
deriving DecidableEq

/-- A child element of the timeline container.  `node` is the identity of the DOM
node, `id` its `id` attribute and `item` the item it was rendered from. -/
structure Element where
  node : Nat
  id : JSString
  item : Item
deriving DecidableEq

/-- The globals of `main.js` the script relies on (lines 16-17).  `STATUS_COLORS`
gives the `label` of the entry stored under a status, if there is an entry. -/
structure Config where
  API_BASE_URL : JSString
  CRISIS_ID : JSString
  POLL_INTERVAL_MS : Nat
  MIN_CLAIM_LENGTH : Nat
  STATUS_COLORS : JSString → Option JSString

/-- What the skeleton container holds: its markup from the page, or the error
paragraph written on line 81. -/
inductive SkeletonContent
  | placeholder
  | errorMessage
deriving DecidableEq

/-- The module state and the observable state of the elements of lines 5-14. -/
structure Page where
  /-- The `Set` of line 2, in insertion order and without repetition. -/
  currentTimelineItemIds : List JSString
  /-- The children of `timelineContainer`, in document order. -/
  timelineContainer : List Element
  /-- Whether `skeletonContainer` carries the class `hidden`. -/
  skeletonHidden : Bool
  skeletonContent : SkeletonContent
  /-- The identity the next created DOM node gets. -/
  nextNode : Nat
  claimModalHidden : Bool
  claimModalFlex : Bool
  claimTextInputValue : JSString
  claimTextInputDisplay : JSString
  verifyNowBtnDisabled : Bool
  verifyNowBtnText : JSString
  charCountText : JSString
  charCountRed : Bool
  charCountGreen : Bool
  submissionReceiptHidden : Bool
  receiptIdText : JSString
  /-- The `style.display` of `claimForm.querySelector('.flex')`, when the form has
  such a descendant. -/
  buttonContainerDisplay : Option JSString
deriving DecidableEq

/-- A call of `fetch`. -/
inductive Request
  | get (url : JSString)
  | postClaim (url : JSString) (claim_text : JSString)
deriving DecidableEq

/-- The calls a handler makes to its collaborators, each list in call order. -/
structure Effects where
  fetches : List Request := []
  /-- The calls `showToast(message, statusKind)`. -/
  toasts : List (JSString × JSString) := []
  /-- The first argument of each `console.error` call. -/
  consoleErrors : List JSString := []
  /-- The arguments of the calls of `createTimelineCard`. -/
  created : List Item := []
  /-- Whether line 81 ran: the skeleton content was replaced by the error message. -/
  errorShown : Bool := false
  /-- The delays of the `setTimeout` calls; the callback is `autoClose`. -/
  timeouts : List Nat := []
deriving DecidableEq

/-- The page when the script starts: nothing known (line 2), nothing rendered, the
modal closed and the form pristine. -/
def Page.initial : Page where
  currentTimelineItemIds := []
  timelineContainer := []
  skeletonHidden := false
  skeletonContent := .placeholder
  nextNode := 0
  claimModalHidden := true
  claimModalFlex := false
  claimTextInputValue := []
  claimTextInputDisplay := []
  verifyNowBtnDisabled := true
  verifyNowBtnText := js "VERIFY NOW"
  charCountText := []
  charCountRed := true
  charCountGreen := false
  submissionReceiptHidden := true
  receiptIdText := []
  buttonContainerDisplay := some []

/-! ## The `Set` of known ids -/

/-- The method `Set.prototype.add`. -/
def setAdd (s : List JSString) (x : JSString) : List JSString :=
  if x ∈ s then s else s ++ [x]

/-- The constructor `new Set(iterable)`. -/
def setOf (xs : List JSString) : List JSString := xs.foldl setAdd []

/-! ## `loadTimeline` -/

/-- What the `fetch` of line 32 answers. -/
inductive TimelineResponse
  /-- The promise rejects (network error). -/
  | rejected (message : JSString)
  /-- A response whose `ok` is false. -/
  | notOk (status : Nat)
  /-- A response whose `ok` is true and whose JSON body is an array of items. -/
  | ok (newItems : List Item)
deriving DecidableEq

/-- Whether the poll fails: `fetch` rejects or the response is not ok. -/
def TimelineResponse.failed : TimelineResponse → Bool
  | .ok _ => false
  | _ => true

/-- The URL of line 32. -/
def timelineUrl (cfg : Config) : JSString :=
  cfg.API_BASE_URL ++ js "/crises/" ++ cfg.CRISIS_ID ++ js "/timeline"

/-- Lines 27-30: on an empty known-id set show the skeleton and empty the container. -/
def showSkeleton (s : Page) : Page :=
  if s.currentTimelineItemIds.length = 0 then
    { s with
      skeletonHidden := false
      timelineContainer := if s.timelineContainer.length > 0 then [] else s.timelineContainer }
  else s

/-- Lines 40-45: one step of the diffing loop over the known ids and `newlyAddedItems`. -/
def diffStep (acc : List JSString × List Item) (item : Item) : List JSString × List Item :=
  (setAdd acc.1 item.id, if item.id ∈ acc.1 then acc.2 else acc.2 ++ [item])

/-- Lines 37-45: the known ids after the loop and `newlyAddedItems`. -/
def diffLoop (known : List JSString) (newItems : List Item) : List JSString × List Item :=
  newItems.foldl diffStep (known, [])

/-- The id looked up on line 54. -/
def cardId (item : Item) : JSString := js "timeline-item-" ++ item.id

/-- The call `document.getElementById(id)`: the first element in document order that
has the id.  Cards are the only elements of the page carrying a `timeline-item-` id,
so the search runs over the children of the timeline container. -/
def getElementById (doc : List Element) (id : JSString) : Option Element :=
  doc.find? (fun e => e.id == id)

/-- Modelled from the spec: `createTimelineCard(item) -> element` of `main.js`, which is
not among the sources.  It builds a new element for the item; existing cards are
"matched by id", so the element carries the id that line 54 looks up. -/
def createTimelineCard (fresh : Nat) (item : Item) : Element :=
  { node := fresh, id := cardId item, item := item }

/-- The state of the loop of lines 53-64. -/
structure RenderState where
  /-- The children still in the timeline container. -/
  doc : List Element
  /-- The children of the document fragment. -/
  fragment : List Element
  nextNode : Nat
  created : List Item
deriving DecidableEq

/-- Lines 54-63: an element found in the document moves to the fragment, otherwise
a new card is created and appended to the fragment. -/
def renderStep (st : RenderState) (item : Item) : RenderState :=
  match getElementById st.doc (cardId item) with
  | some element =>
    { st with doc := st.doc.erase element, fragment := st.fragment ++ [element] }
  | none =>
    { st with
      fragment := st.fragment ++ [createTimelineCard st.nextNode item]
      nextNode := st.nextNode + 1
      created := st.created ++ [item] }

/-- Lines 51-64: the loop over the response, from an empty fragment and the children
the timeline container has. -/
def renderLoop (newItems : List Item) (s : Page) : RenderState :=
  newItems.foldl renderStep
    { doc := s.timelineContainer, fragment := [], nextNode := s.nextNode, created := [] }

/-- Lines 67-69: `fragment.childNodes.forEach(child => timelineContainer.appendChild(child))`.
`childNodes` is a live `NodeList` and its `forEach` is `Array.prototype.forEach`: the
length is read once (`n` counts the indices left), then index `k` is visited when the
list still has it.  `appendChild` moves the child out of the fragment, which shortens
the live list.  The result is the fragment that remains and the container. -/
def appendLive : Nat → Nat → List Element → List Element → List Element × List Element
  | 0, _, fragment, container => (fragment, container)
  | n + 1, k, fragment, container =>
    match fragment.get? k with
    | some child => appendLive n (k + 1) (fragment.eraseIdx k) (container ++ [child])
    | none => appendLive n (k + 1) fragment container

/-- Lines 73-74: the label of `STATUS_COLORS[item.status] || STATUS_COLORS['UNCONFIRMED']`;
`none` when neither entry exists, where reading `.label` throws. -/
def statusLabel (cfg : Config) (status : JSString) : Option JSString :=
  match cfg.STATUS_COLORS status with
  | some label => some label
  | none => cfg.STATUS_COLORS (js "UNCONFIRMED")

/-- Lines 72-76: the toasts shown, and whether the loop threw. -/
def toastLoop (cfg : Config) :
    List Item → List (JSString × JSString) → List (JSString × JSString) × Bool
  | [], shown => (shown, false)
  | item :: rest, shown =>
    match statusLabel cfg item.status with
    | none => (shown, true)
    | some label =>
      toastLoop cfg rest
        (shown ++ [(js "NEW " ++ label ++ js ": " ++ substring0 item.summary 50 ++ js "...",
          item.status)])

/-- Lines 78-83: the `catch` block. -/
def catchLoad (s : Page) (eff : Effects) : Page × Effects :=
  let eff := { eff with consoleErrors := eff.consoleErrors ++ [js "Failed to load timeline:"] }
  if s.currentTimelineItemIds.length = 0 then
    ({ s with skeletonContent := .errorMessage }, { eff with errorShown := true })
  else (s, eff)

/-- Lines 22-84: one poll, given what `fetch` answers. -/
def loadTimeline (cfg : Config) (r : TimelineResponse) (s : Page) : Page × Effects :=
  let s := showSkeleton s
  let eff : Effects := { fetches := [Request.get (timelineUrl cfg)] }
  match r with
  | .rejected _ => catchLoad s eff
  | .notOk _ => catchLoad s eff
  | .ok newItems =>
    let newItemIds := setOf (newItems.map Item.id)
    let newlyAddedItems := (diffLoop s.currentTimelineItemIds newItems).2
    let s := { s with currentTimelineItemIds := newItemIds, skeletonHidden := true }
    let st := renderLoop newItems s
    let moved := appendLive st.fragment.length 0 st.fragment []
    let s := { s with timelineContainer := moved.2, nextNode := st.nextNode }
    let eff := { eff with created := st.created }
    match toastLoop cfg newlyAddedItems [] with
    | (shown, false) => (s, { eff with toasts := shown })
    | (shown, true) => catchLoad s { eff with toasts := shown }

/-- The page after a sequence of polls, one per answer of `fetch`. -/
def runPolls (cfg : Config) : List TimelineResponse → Page → Page
  | [], s => s
  | r :: rest, s => runPolls cfg rest (loadTimeline cfg r s).1

/-- The items of the most recent ok response of a sequence of polls; no item when
no poll of the sequence got an ok response. -/
def lastLoaded : List TimelineResponse → List Item → List Item
  | [], items => items
  | .ok newItems :: rest, _ => lastLoaded rest newItems
  | _ :: rest, items => lastLoaded rest items

/-- Whether some poll of the sequence got an ok response with at least one item. -/
def itemsEverLoaded (polls : List TimelineResponse) : Bool :=
  polls.any fun r =>
    match r with
    | .ok newItems => !newItems.isEmpty
    | _ => false

/-! ## The claim submission form (`initializeTimeline`) -/

/-- Lines 97-107: the click handler of `submitClaimBtn` (the focus of the input is not
part of the page state). -/
def openModal (cfg : Config) (s : Page) : Page :=
  { s with
    claimModalHidden := false
    claimModalFlex := true
    submissionReceiptHidden := true
    claimTextInputValue := []
    verifyNowBtnDisabled := true
    charCountGreen := false
    charCountRed := true
    charCountText := js "0 / " ++ numToString cfg.MIN_CLAIM_LENGTH ++ js " required" }

/-- Lines 109-112: the click handler of `cancelClaimBtn`. -/
def cancelModal (s : Page) : Page :=
  { s with claimModalHidden := true, claimModalFlex := false }

/-- Lines 115-129: the `input` handler of `claimTextInput`, run on the value the input
holds. -/
def inputHandler (cfg : Config) (s : Page) : Page :=
  let length := s.claimTextInputValue.length
  let isValid := decide (length ≥ cfg.MIN_CLAIM_LENGTH)
  let s := { s with
    verifyNowBtnDisabled := !isValid
    charCountText :=
      numToString length ++ js " / " ++ numToString cfg.MIN_CLAIM_LENGTH ++ js " required" }
  if isValid then { s with charCountRed := false, charCountGreen := true }
  else { s with charCountGreen := false, charCountRed := true }

/-- What the `fetch` of line 142 answers. -/
inductive SubmitResponse
  /-- The promise rejects with an error carrying `message`. -/
  | rejected (message : JSString)
  /-- A response whose `ok` is false; `body` is what `response.text()` resolves to, or
  the message of the error it rejects with. -/
  | notOk (status : Nat) (statusText : JSString) (body : Except JSString JSString)
  /-- A response whose `ok` is true and whose JSON body is a receipt with a string `id`. -/
  | ok (receiptId : JSString)

/-- Whether the request fails: `fetch` rejects or the response is not ok. -/
def SubmitResponse.failed : SubmitResponse → Bool
  | .ok _ => false
  | _ => true

/-- The `message` of the error that reaches the `catch` block of line 175. -/
def SubmitResponse.errorMessage : SubmitResponse → JSString
  | .rejected message => message
  | .notOk _ _ (.error message) => message
  | .notOk status _ (.ok _) => js "Submission failed. Status: " ++ numToString status
  | .ok _ => []

/-- The URL of line 142. -/
def submitUrl (cfg : Config) : JSString :=
  cfg.API_BASE_URL ++ js "/crises/" ++ cfg.CRISIS_ID ++ js "/submit-claim"

/-- Lines 175-180: the `catch` block of the submit handler. -/
def catchSubmit (s : Page) (eff : Effects) (message : JSString) : Page × Effects :=
  ({ s with verifyNowBtnText := js "Failed. Retry?", verifyNowBtnDisabled := false },
   { eff with
     consoleErrors := eff.consoleErrors ++ [js "Claim submission failed (Catch Block):"]
     toasts := eff.toasts ++ [(js "Failed to submit claim: " ++ message, js "DEBUNKED")] })

/-- Lines 132-181: the `submit` handler of `claimForm`, given what `fetch` answers.
The element `receipt-id` of line 160 exists; `e.preventDefault()` and the request
headers leave no trace in the page state. -/
def submitHandler (cfg : Config) (r : SubmitResponse) (s : Page) : Page × Effects :=
  let claimText := trim s.claimTextInputValue
  if claimText.length < cfg.MIN_CLAIM_LENGTH then (s, {})
  else
    let s := { s with verifyNowBtnDisabled := true, verifyNowBtnText := js "Submitting..." }
    let eff : Effects := { fetches := [Request.postClaim (submitUrl cfg) claimText] }
    match r with
    | .rejected message => catchSubmit s eff message
    | .notOk _ _ (.error message) => catchSubmit s eff message
    | .notOk status statusText (.ok _) =>
      catchSubmit s
        { eff with
          consoleErrors := [js "Submission failed. Status: " ++ numToString status ++
            js ". Status Text: " ++ statusText ++ js ". Response Body:"] }
        (js "Submission failed. Status: " ++ numToString status)
    | .ok receiptId =>
      ({ s with
         claimTextInputDisplay := js "none"
         buttonContainerDisplay := s.buttonContainerDisplay.map fun _ => js "none"
         receiptIdText := substring0 receiptId 8 ++ js "..."
         submissionReceiptHidden := false },
       { eff with
         toasts := [(js "Claim submitted! ID " ++ substring0 receiptId 8 ++
           js ". Status: PENDING.", js "UNCONFIRMED")]
         timeouts := [5000] })

/-- Lines 165-173: the callback given to `setTimeout`; the dispatched `input` event runs
the input handler. -/
def autoClose (cfg : Config) (s : Page) : Page :=
  inputHandler cfg
    { s with
      claimModalHidden := true
      claimModalFlex := false
      claimTextInputDisplay := js "block"
      buttonContainerDisplay := s.buttonContainerDisplay.map fun _ => js "flex"
      verifyNowBtnText := js "VERIFY NOW" }


/-! ## Auxiliary definitions for the statements -/

/-- The elements at positions 0, 2, 4, ... of a list. -/
def everyOther : List Element → List Element
  | [] => []
  | [a] => [a]
  | a :: _ :: rest => a :: everyOther rest

/-- The elements at positions 1, 3, 5, ... of a list. -/
def skipped : List Element → List Element
  | [] => []
  | [_] => []
  | _ :: b :: rest => b :: skipped rest

/-- The toast of lines 74-75 for an item whose status label is `label`. -/
def toastFor (label : JSString) (item : Item) : JSString × JSString :=
  (js "NEW " ++ label ++ js ": " ++ item.summary.take 50 ++ js "...", item.status)

/-- A configuration with labels for three statuses, used in the examples. -/
def exampleConfig : Config where
  API_BASE_URL := js "/api"
  CRISIS_ID := js "1"
  POLL_INTERVAL_MS := 5000
  MIN_CLAIM_LENGTH := 20
  STATUS_COLORS := fun status =>
    if status = js "VERIFIED" then some (js "Verified")
    else if status = js "UNCONFIRMED" then some (js "Unconfirmed")
    else if status = js "DEBUNKED" then some (js "Debunked")
    else none

/-- The item `{id: "a", status: "VERIFIED"}` of the scenario. -/
def itemA : Item := { id := js "a", status := js "VERIFIED", summary := js "Bridge is open" }

/-- The item `{id: "b", status: "UNCONFIRMED"}` of the scenario. -/
def itemB : Item := { id := js "b", status := js "UNCONFIRMED", summary := js "Road is closed" }

/-- An item whose status `RUMOR` has no entry in the example configurations. -/
def itemC : Item := { id := js "c", status := js "RUMOR", summary := js "Shelter is full" }

/-- A configuration whose `STATUS_COLORS` has an entry for `VERIFIED` only: no entry
for `UNCONFIRMED`, the fallback of line 73. -/
def bareConfig : Config where
  API_BASE_URL := js "/api"
  CRISIS_ID := js "1"
  POLL_INTERVAL_MS := 5000
  MIN_CLAIM_LENGTH := 20
  STATUS_COLORS := fun status => if status = js "VERIFIED" then some (js "Verified") else none

/-- A page whose claim input holds `text`. -/
def pageWithInput (text : JSString) : Page :=
  { Page.initial with
    claimModalHidden := false
    claimModalFlex := true
    claimTextInputValue := text }

/-- Nineteen letters followed by one space: 20 code units, 19 after trimming. -/
def paddedText : JSString := js "aaaaaaaaaaaaaaaaaaa "

/-! ## Lemmas on the known-id set -/

theorem mem_foldl_setAdd (xs : List JSString) (acc : List JSString) (x : JSString) :
    x ∈ xs.foldl setAdd acc ↔ x ∈ acc ∨ x ∈ xs := by
  induction xs generalizing acc with
  | nil => simp
  | cons y ys ih =>
    simp only [List.foldl_cons, ih, List.mem_cons]
    unfold setAdd
    split
    · constructor
      · rintro (h | h)
        · exact Or.inl h
        · exact Or.inr (Or.inr h)
      · rintro (h | h | h)
        · exact Or.inl h
        · subst h; exact Or.inl ‹_›
        · exact Or.inr h
    · simp only [List.mem_append, List.mem_singleton]
      tauto

theorem nodup_foldl_setAdd (xs : List JSString) (acc : List JSString) (h : acc.Nodup) :
    (xs.foldl setAdd acc).Nodup := by
  induction xs generalizing acc with
  | nil => simpa using h
  | cons y ys ih =>
    simp only [List.foldl_cons]
    apply ih
    unfold setAdd
    split
    · exact h
    · rw [List.nodup_append]
      refine ⟨h, List.nodup_singleton y, ?_⟩
      intro a ha hb
      simp only [List.mem_singleton] at hb
      subst hb
      contradiction

theorem mem_setOf (xs : List JSString) (x : JSString) : x ∈ setOf xs ↔ x ∈ xs := by
  simp [setOf, mem_foldl_setAdd]

theorem nodup_setOf (xs : List JSString) : (setOf xs).Nodup :=
  nodup_foldl_setAdd xs [] List.nodup_nil

theorem setOf_eq_nil_iff (xs : List JSString) : setOf xs = [] ↔ xs = [] := by
  constructor
  · intro h
    cases xs with
    | nil => rfl
    | cons y ys =>
      have : y ∈ setOf (y :: ys) := (mem_setOf _ _).2 (List.mem_cons_self _ _)
      rw [h] at this
      cases this
  · rintro rfl
    rfl

/-! ## Lemmas on the diffing loop -/

theorem diffLoop_spec (newItems : List Item) (known : List JSString) (acc : List Item) :
    ∃ added : List Item,
      (newItems.foldl diffStep (known, acc)).2 = acc ++ added ∧
      added.Sublist newItems ∧
      (added.map Item.id).Nodup ∧
      ∀ x, x ∈ added.map Item.id ↔ (x ∈ newItems.map Item.id ∧ x ∉ known) := by
  induction newItems generalizing known acc with
  | nil => exact ⟨[], by simp⟩
  | cons it rest ih =>
    by_cases hk : it.id ∈ known
    · obtain ⟨added, h1, h2, h3, h4⟩ := ih known acc
      refine ⟨added, ?_, h2.cons it, h3, ?_⟩
      · simpa [diffStep, setAdd, hk] using h1
      · intro x
        rw [h4 x]
        simp only [List.map_cons, List.mem_cons]
        constructor
        · rintro ⟨h, h'⟩
          exact ⟨Or.inr h, h'⟩
        · rintro ⟨h | h, h'⟩
          · subst h; exact absurd hk h'
          · exact ⟨h, h'⟩
    · obtain ⟨added, h1, h2, h3, h4⟩ := ih (known ++ [it.id]) (acc ++ [it])
      refine ⟨it :: added, ?_, h2.cons₂ it, ?_, ?_⟩
      · simpa [diffStep, setAdd, hk] using h1
      · simp only [List.map_cons, List.nodup_cons]
        refine ⟨?_, h3⟩
        intro hmem
        have := ((h4 it.id).1 hmem).2
        simp at this
      · intro x
        simp only [List.map_cons, List.mem_cons]
        constructor
        · rintro (h | h)
          · subst h; exact ⟨Or.inl rfl, hk⟩
          · have := (h4 x).1 h
            refine ⟨Or.inr this.1, ?_⟩
            intro hx
            exact this.2 (List.mem_append_left _ hx)
        · rintro ⟨h | h, h'⟩
          · exact Or.inl h
          · by_cases hx : x = it.id
            · exact Or.inl hx
            · refine Or.inr ((h4 x).2 ⟨h, ?_⟩)
              simp [h', hx]


/-! ## Lemmas on `loadTimeline` -/

@[simp] theorem showSkeleton_known (s : Page) :
    (showSkeleton s).currentTimelineItemIds = s.currentTimelineItemIds := by
  unfold showSkeleton
  split <;> rfl

@[simp] theorem catchLoad_known (s : Page) (eff : Effects) :
    (catchLoad s eff).1.currentTimelineItemIds = s.currentTimelineItemIds := by
  unfold catchLoad
  split <;> rfl

@[simp] theorem catchLoad_container (s : Page) (eff : Effects) :
    (catchLoad s eff).1.timelineContainer = s.timelineContainer := by
  unfold catchLoad
  split <;> rfl

@[simp] theorem catchLoad_toasts (s : Page) (eff : Effects) :
    (catchLoad s eff).2.toasts = eff.toasts := by
  unfold catchLoad
  split <;> rfl

theorem catchLoad_errorShown (s : Page) (eff : Effects) (h : eff.errorShown = false) :
    (catchLoad s eff).2.errorShown = decide (s.currentTimelineItemIds = []) := by
  unfold catchLoad
  split
  · rename_i h0
    simp [List.length_eq_zero.1 h0]
  · rename_i h0
    simp only [List.length_eq_zero] at h0
    simp [h, h0]

theorem loadTimeline_ok_known (cfg : Config) (newItems : List Item) (s : Page) :
    (loadTimeline cfg (.ok newItems) s).1.currentTimelineItemIds =
      setOf (newItems.map Item.id) := by
  unfold loadTimeline
  simp only
  split <;> simp

theorem loadTimeline_ok_container (cfg : Config) (newItems : List Item) (s : Page) :
    (loadTimeline cfg (.ok newItems) s).1.timelineContainer =
      (appendLive (renderLoop newItems (showSkeleton s)).fragment.length 0
        (renderLoop newItems (showSkeleton s)).fragment []).2 := by
  unfold loadTimeline
  simp only
  split <;> simp [renderLoop]

theorem loadTimeline_ok_toasts (cfg : Config) (newItems : List Item) (s : Page) :
    (loadTimeline cfg (.ok newItems) s).2.toasts =
      (toastLoop cfg (diffLoop s.currentTimelineItemIds newItems).2 []).1 := by
  unfold loadTimeline
  simp only
  split <;> simp_all

theorem loadTimeline_failed_known (cfg : Config) (r : TimelineResponse) (s : Page)
    (h : r.failed = true) :
    (loadTimeline cfg r s).1.currentTimelineItemIds = s.currentTimelineItemIds := by
  cases r with
  | ok items => simp [TimelineResponse.failed] at h
  | rejected m => simp [loadTimeline]
  | notOk n => simp [loadTimeline]

theorem loadTimeline_failed_container (cfg : Config) (r : TimelineResponse) (s : Page)
    (h : r.failed = true) :
    (loadTimeline cfg r s).1.timelineContainer = (showSkeleton s).timelineContainer := by
  cases r with
  | ok items => simp [TimelineResponse.failed] at h
  | rejected m => simp [loadTimeline]
  | notOk n => simp [loadTimeline]

theorem loadTimeline_failed_errorShown (cfg : Config) (r : TimelineResponse) (s : Page)
    (h : r.failed = true) :
    (loadTimeline cfg r s).2.errorShown = decide (s.currentTimelineItemIds = []) := by
  cases r with
  | ok items => simp [TimelineResponse.failed] at h
  | rejected m => simp [loadTimeline, catchLoad_errorShown]
  | notOk n => simp [loadTimeline, catchLoad_errorShown]

theorem renderStep_fragment_length (st : RenderState) (item : Item) :
    (renderStep st item).fragment.length = st.fragment.length + 1 := by
  unfold renderStep
  split <;> simp

theorem foldl_renderStep_fragment_length (newItems : List Item) (st : RenderState) :
    (newItems.foldl renderStep st).fragment.length = st.fragment.length + newItems.length := by
  induction newItems generalizing st with
  | nil => simp
  | cons it rest ih =>
    simp only [List.foldl_cons, ih, renderStep_fragment_length, List.length_cons]
    omega

theorem renderLoop_fragment_length (newItems : List Item) (s : Page) :
    (renderLoop newItems s).fragment.length = newItems.length := by
  simp [renderLoop, foldl_renderStep_fragment_length]

theorem appendLive_of_length_le (n k : Nat) (fragment container : List Element)
    (h : fragment.length ≤ k) :
    appendLive n k fragment container = (fragment, container) := by
  induction n generalizing k with
  | zero => rfl
  | succ n ih =>
    have hnone : fragment.get? k = none := List.get?_eq_none.2 h
    simp only [appendLive, hnone]
    exact ih (k + 1) (by omega)

theorem appendLive_append (n : Nat) (visited rest container : List Element)
    (h : rest.length ≤ n) :
    appendLive n visited.length (visited ++ rest) container =
      (visited ++ skipped rest, container ++ everyOther rest) := by
  induction n generalizing visited rest container with
  | zero =>
    have : rest = [] := List.length_eq_zero.1 (by omega)
    subst this
    simp [appendLive, skipped, everyOther]
  | succ n ih =>
    match rest, h with
    | [], _ =>
      simpa [skipped, everyOther] using
        appendLive_of_length_le (n + 1) visited.length visited container (le_refl _)
    | [a], _ =>
      have hget : (visited ++ [a]).get? visited.length = some a := by simp
      have herase : (visited ++ [a]).eraseIdx visited.length = visited := by
        rw [List.eraseIdx_append_of_length_le (le_refl _)]
        simp
      simp only [appendLive, hget, herase, skipped, everyOther, List.append_nil]
      exact appendLive_of_length_le n (visited.length + 1) visited _ (by omega)
    | a :: b :: rest, h =>
      have hget : (visited ++ a :: b :: rest).get? visited.length = some a := by
        rw [List.get?_eq_getElem?, List.getElem?_append_right (le_refl _)]
        simp
      have herase : (visited ++ a :: b :: rest).eraseIdx visited.length =
          (visited ++ [b]) ++ rest := by
        rw [List.eraseIdx_append_of_length_le (le_refl _)]
        simp
      simp only [appendLive, hget, herase, skipped, everyOther]
      have hlen : (visited ++ [b]).length = visited.length + 1 := by simp
      rw [← hlen, ih (visited ++ [b]) rest (container ++ [a])
        (by simp only [List.length_cons] at h; omega)]
      simp

theorem everyOther_length (xs : List Element) :
    (everyOther xs).length = (xs.length + 1) / 2 := by
  induction xs using everyOther.induct with
  | case1 => rfl
  | case2 a => simp [everyOther]
  | case3 a b rest ih =>
    simp only [everyOther, List.length_cons, ih]
    omega

/-- After an ok poll the container holds the fragment children at positions 0, 2, 4, ...:
the live `childNodes` list loses every child that is moved. -/
theorem loadTimeline_ok_container_everyOther (cfg : Config) (newItems : List Item) (s : Page) :
    (loadTimeline cfg (.ok newItems) s).1.timelineContainer =
      everyOther (renderLoop newItems (showSkeleton s)).fragment := by
  rw [loadTimeline_ok_container]
  have := appendLive_append (renderLoop newItems (showSkeleton s)).fragment.length []
    (renderLoop newItems (showSkeleton s)).fragment [] (le_refl _)
  simp only [List.length_nil, List.nil_append] at this
  rw [this]

/-- After an ok poll with `n` items the container has `(n + 1) / 2` children. -/
theorem loadTimeline_ok_container_length (cfg : Config) (newItems : List Item) (s : Page) :
    (loadTimeline cfg (.ok newItems) s).1.timelineContainer.length =
      (newItems.length + 1) / 2 := by
  rw [loadTimeline_ok_container_everyOther, everyOther_length, renderLoop_fragment_length]

theorem toastLoop_spec (cfg : Config) (items : List Item) (shown : List (JSString × JSString))
    (h : ∀ item ∈ items, statusLabel cfg item.status ≠ none) :
    ∃ ts, toastLoop cfg items shown = (shown ++ ts, false) ∧
      List.Forall₂ (fun item t => ∃ label, statusLabel cfg item.status = some label ∧
        t = toastFor label item) items ts := by
  induction items generalizing shown with
  | nil => exact ⟨[], by simp [toastLoop]⟩
  | cons it rest ih =>
    cases hl : statusLabel cfg it.status with
    | none => exact absurd hl (h it (List.mem_cons_self _ _))
    | some label =>
      obtain ⟨ts, h1, h2⟩ := ih (shown ++ [toastFor label it])
        (fun item hi => h item (List.mem_cons_of_mem _ hi))
      refine ⟨toastFor label it :: ts, ?_, List.Forall₂.cons ⟨label, hl, rfl⟩ h2⟩
      simp only [toastLoop, hl]
      simpa [toastFor, substring0] using h1

theorem statusLabel_eq_some_iff (cfg : Config) (status label : JSString) :
    statusLabel cfg status = some label ↔
      (cfg.STATUS_COLORS status = some label ∨
        (cfg.STATUS_COLORS status = none ∧
          cfg.STATUS_COLORS (js "UNCONFIRMED") = some label)) := by
  unfold statusLabel
  cases h : cfg.STATUS_COLORS status <;> simp

theorem statusLabel_ne_none_iff (cfg : Config) (status : JSString) :
    statusLabel cfg status ≠ none ↔
      (cfg.STATUS_COLORS status ≠ none ∨ cfg.STATUS_COLORS (js "UNCONFIRMED") ≠ none) := by
  unfold statusLabel
  cases h : cfg.STATUS_COLORS status <;> simp

theorem trim_length_le (s : JSString) : (trim s).length ≤ s.length := by
  unfold trim
  rw [List.length_reverse]
  calc ((s.dropWhile isTrimmable).reverse.dropWhile isTrimmable).length
      ≤ (s.dropWhile isTrimmable).reverse.length := (List.dropWhile_sublist _).length_le
    _ = (s.dropWhile isTrimmable).length := List.length_reverse _
    _ ≤ s.length := (List.dropWhile_sublist _).length_le

/-! ## Sequences of polls -/

theorem showSkeleton_container_of_known (s : Page) (h : s.currentTimelineItemIds ≠ []) :
    (showSkeleton s).timelineContainer = s.timelineContainer := by
  unfold showSkeleton
  rw [if_neg (by simpa using h)]

theorem showSkeleton_container_of_empty (s : Page) (h : s.currentTimelineItemIds = []) :
    (showSkeleton s).timelineContainer = [] := by
  unfold showSkeleton
  rw [if_pos (by simp [h])]
  cases hc : s.timelineContainer <;> simp [hc]

/-- After any poll, an empty known-id set comes with an empty container. -/
theorem loadTimeline_container_of_known_empty (cfg : Config) (r : TimelineResponse) (s : Page)
    (h : (loadTimeline cfg r s).1.currentTimelineItemIds = []) :
    (loadTimeline cfg r s).1.timelineContainer = [] := by
  cases hr : r.failed with
  | true =>
    rw [loadTimeline_failed_known cfg r s hr] at h
    rw [loadTimeline_failed_container cfg r s hr]
    exact showSkeleton_container_of_empty s h
  | false =>
    cases r with
    | ok newItems =>
      rw [loadTimeline_ok_known, setOf_eq_nil_iff, List.map_eq_nil_iff] at h
      subst h
      rw [loadTimeline_ok_container_everyOther]
      rfl
    | rejected m => simp [TimelineResponse.failed] at hr
    | notOk n => simp [TimelineResponse.failed] at hr

theorem runPolls_container_of_known_empty (cfg : Config) (polls : List TimelineResponse)
    (s : Page) (hs : s.currentTimelineItemIds = [] → s.timelineContainer = [])
    (h : (runPolls cfg polls s).currentTimelineItemIds = []) :
    (runPolls cfg polls s).timelineContainer = [] := by
  induction polls generalizing s with
  | nil => exact hs h
  | cons r rest ih =>
    exact ih (loadTimeline cfg r s).1 (loadTimeline_container_of_known_empty cfg r s) h

theorem runPolls_known (cfg : Config) (polls : List TimelineResponse) (s : Page)
    (items : List Item) (hs : s.currentTimelineItemIds = setOf (items.map Item.id)) :
    (runPolls cfg polls s).currentTimelineItemIds =
      setOf ((lastLoaded polls items).map Item.id) := by
  induction polls generalizing s items with
  | nil => exact hs
  | cons r rest ih =>
    cases r with
    | ok newItems =>
      exact ih (loadTimeline cfg (.ok newItems) s).1 newItems (loadTimeline_ok_known cfg newItems s)
    | rejected m =>
      exact ih (loadTimeline cfg (.rejected m) s).1 items
        ((loadTimeline_failed_known cfg (.rejected m) s rfl).trans hs)
    | notOk n =>
      exact ih (loadTimeline cfg (.notOk n) s).1 items
        ((loadTimeline_failed_known cfg (.notOk n) s rfl).trans hs)

/-! ## The polling loop: rendered list, notifications, known ids -/

/-- C1: on the first load of the scenario response `[a, b]` both cards are created, but the
timeline container ends with one child, the card of `a`: the card of `b` stays in the
fragment, because the live `childNodes` list of lines 67-69 skips it. -/
theorem loadTimeline_first_load_leaves_second_card_out :
    (loadTimeline exampleConfig (.ok [itemA, itemB]) Page.initial).2.created = [itemA, itemB] ∧
    (loadTimeline exampleConfig (.ok [itemA, itemB]) Page.initial).1.timelineContainer =
      [createTimelineCard 0 itemA] := by
  decide

/-- C2, as stated, fails: with a `STATUS_COLORS` that has an entry neither for `RUMOR` nor
for `UNCONFIRMED`, the first poll of the ok response `[a, c]` shows the toast of `a` and
then throws on line 74: the id `c` is in the response and was not known, the known-id set
is replaced all the same, and no toast is shown for `c`. -/
theorem loadTimeline_no_toast_without_label :
    js "c" ∈ [itemA, itemC].map Item.id ∧
    js "c" ∉ Page.initial.currentTimelineItemIds ∧
    (loadTimeline bareConfig (.ok [itemA, itemC]) Page.initial).1.currentTimelineItemIds =
      [js "a", js "c"] ∧
    (loadTimeline bareConfig (.ok [itemA, itemC]) Page.initial).2.toasts =
      [(js "NEW Verified: Bridge is open...", js "VERIFIED")] := by
  decide

/-- C2, amended: on an ok poll in which `STATUS_COLORS` has an entry for the status of every
item with an unknown id, or for `UNCONFIRMED`, `showToast` is called once for each id of the
response that the prior known-id set lacks and for no other id, in response order.  The
message is `NEW <label>: <first 50 code units of the summary>...`, where the label is that
of the entry of the item status, or of the entry of `UNCONFIRMED` when the status has none.
Polling the same response again calls `showToast` zero times. -/
theorem loadTimeline_toasts_for_new_ids (cfg : Config) (newItems : List Item) (s : Page)
    (hlabel : ∀ item ∈ newItems, item.id ∉ s.currentTimelineItemIds →
      (cfg.STATUS_COLORS item.status ≠ none ∨
        cfg.STATUS_COLORS (js "UNCONFIRMED") ≠ none)) :
    ∃ added : List Item,
      added.Sublist newItems ∧
      (added.map Item.id).Nodup ∧
      (∀ id, id ∈ added.map Item.id ↔
        (id ∈ newItems.map Item.id ∧ id ∉ s.currentTimelineItemIds)) ∧
      List.Forall₂
        (fun item toast => ∃ label,
          (cfg.STATUS_COLORS item.status = some label ∨
            (cfg.STATUS_COLORS item.status = none ∧
              cfg.STATUS_COLORS (js "UNCONFIRMED") = some label)) ∧
          toast = (js "NEW " ++ label ++ js ": " ++ item.summary.take 50 ++ js "...",
            item.status))
        added (loadTimeline cfg (.ok newItems) s).2.toasts ∧
      (loadTimeline cfg (.ok newItems) (loadTimeline cfg (.ok newItems) s).1).2.toasts = [] := by
  obtain ⟨added, h1, h2, h3, h4⟩ := diffLoop_spec newItems s.currentTimelineItemIds []
  simp only [List.nil_append] at h1
  have hadded : ∀ item ∈ added, statusLabel cfg item.status ≠ none :=
    fun item hi => (statusLabel_ne_none_iff cfg item.status).2
      (hlabel item (h2.subset hi) ((h4 item.id).1 (List.mem_map_of_mem Item.id hi)).2)
  obtain ⟨ts, ht1, ht2⟩ := toastLoop_spec cfg added [] hadded
  refine ⟨added, h2, h3, h4, ?_, ?_⟩
  · rw [loadTimeline_ok_toasts]
    simp only [diffLoop, h1, ht1, List.nil_append]
    refine ht2.imp ?_
    rintro item toast ⟨label, hl, ht⟩
    exact ⟨label, (statusLabel_eq_some_iff cfg item.status label).1 hl, ht⟩
  · rw [loadTimeline_ok_toasts, loadTimeline_ok_known]
    obtain ⟨again, g1, _, _, g4⟩ := diffLoop_spec newItems (setOf (newItems.map Item.id)) []
    have hnil : again = [] := by
      cases again with
      | nil => rfl
      | cons it rest =>
        have := (g4 it.id).1 (by simp)
        exact absurd ((mem_setOf _ _).2 this.1) this.2
    simp only [diffLoop, g1, hnil, List.nil_append]
    rfl

/-- Witness of C2 amended: the first load of `[a, b, c]`, where `VERIFIED` and `UNCONFIRMED`
have an entry and `RUMOR` falls back to the entry of `UNCONFIRMED`. -/
theorem loadTimeline_toasts_for_new_ids_witness :
    (∀ item ∈ [itemA, itemB, itemC], item.id ∉ Page.initial.currentTimelineItemIds →
      (exampleConfig.STATUS_COLORS item.status ≠ none ∨
        exampleConfig.STATUS_COLORS (js "UNCONFIRMED") ≠ none)) ∧
    (∃ added : List Item,
      added.Sublist [itemA, itemB, itemC] ∧
      (added.map Item.id).Nodup ∧
      (∀ id, id ∈ added.map Item.id ↔
        (id ∈ [itemA, itemB, itemC].map Item.id ∧
          id ∉ Page.initial.currentTimelineItemIds)) ∧
      List.Forall₂
        (fun item toast => ∃ label,
          (exampleConfig.STATUS_COLORS item.status = some label ∨
            (exampleConfig.STATUS_COLORS item.status = none ∧
              exampleConfig.STATUS_COLORS (js "UNCONFIRMED") = some label)) ∧
          toast = (js "NEW " ++ label ++ js ": " ++ item.summary.take 50 ++ js "...",
            item.status))
        added (loadTimeline exampleConfig (.ok [itemA, itemB, itemC]) Page.initial).2.toasts ∧
      (loadTimeline exampleConfig (.ok [itemA, itemB, itemC])
        (loadTimeline exampleConfig (.ok [itemA, itemB, itemC])
          Page.initial).1).2.toasts = []) ∧
    (loadTimeline exampleConfig (.ok [itemA, itemB, itemC]) Page.initial).2.toasts =
      [(js "NEW Verified: Bridge is open...", js "VERIFIED"),
       (js "NEW Unconfirmed: Road is closed...", js "UNCONFIRMED"),
       (js "NEW Unconfirmed: Shelter is full...", js "RUMOR")] :=
  ⟨by decide,
    loadTimeline_toasts_for_new_ids exampleConfig [itemA, itemB, itemC] Page.initial
      (by decide),
    by decide⟩

/-- C3: after an ok poll the known-id set holds exactly the ids of the response, each once;
an id known before the poll and missing from the response is no longer known. -/
theorem loadTimeline_known_ids_replaced (cfg : Config) (newItems : List Item) (s : Page) :
    (∀ id, id ∈ (loadTimeline cfg (.ok newItems) s).1.currentTimelineItemIds ↔
      id ∈ newItems.map Item.id) ∧
    (loadTimeline cfg (.ok newItems) s).1.currentTimelineItemIds.Nodup ∧
    (∀ id, id ∈ s.currentTimelineItemIds → id ∉ newItems.map Item.id →
      id ∉ (loadTimeline cfg (.ok newItems) s).1.currentTimelineItemIds) := by
  rw [loadTimeline_ok_known]
  refine ⟨fun id => mem_setOf _ id, nodup_setOf _, fun id _ hnot hmem => ?_⟩
  exact hnot ((mem_setOf _ id).1 hmem)

/-- C4: two polls of the scenario response `[a, b]` from the initial page.  The id `b` is in
both responses, yet the second poll calls `createTimelineCard` for `b` again, and the
container still holds the card of `a` only. -/
theorem loadTimeline_second_poll_recreates_card :
    (loadTimeline exampleConfig (.ok [itemA, itemB])
      (loadTimeline exampleConfig (.ok [itemA, itemB]) Page.initial).1).2.created = [itemB] ∧
    (loadTimeline exampleConfig (.ok [itemA, itemB])
      (loadTimeline exampleConfig (.ok [itemA, itemB]) Page.initial).1).1.timelineContainer =
        [createTimelineCard 0 itemA] := by
  decide

/-! ## The polling loop: failures -/

/-- C6: in a state reached from the initial page by any sequence of polls, a poll that fails
while rendered items exist leaves the known-id set and the children of the timeline
container as they were. -/
theorem loadTimeline_failure_keeps_render (cfg : Config) (polls : List TimelineResponse)
    (r : TimelineResponse) (hfail : r.failed = true)
    (hrendered : (runPolls cfg polls Page.initial).timelineContainer ≠ []) :
    (loadTimeline cfg r (runPolls cfg polls Page.initial)).1.currentTimelineItemIds =
      (runPolls cfg polls Page.initial).currentTimelineItemIds ∧
    (loadTimeline cfg r (runPolls cfg polls Page.initial)).1.timelineContainer =
      (runPolls cfg polls Page.initial).timelineContainer := by
  have hknown : (runPolls cfg polls Page.initial).currentTimelineItemIds ≠ [] := fun h =>
    hrendered (runPolls_container_of_known_empty cfg polls Page.initial (fun _ => rfl) h)
  exact ⟨loadTimeline_failed_known cfg r _ hfail,
    (loadTimeline_failed_container cfg r _ hfail).trans
      (showSkeleton_container_of_known _ hknown)⟩

/-- Witness of C6: a response with status 500 after a load of `[a]`. -/
theorem loadTimeline_failure_keeps_render_witness :
    (TimelineResponse.notOk 500).failed = true ∧
    (runPolls exampleConfig [.ok [itemA]] Page.initial).timelineContainer ≠ [] ∧
    (loadTimeline exampleConfig (.notOk 500)
      (runPolls exampleConfig [.ok [itemA]] Page.initial)).1.currentTimelineItemIds =
      (runPolls exampleConfig [.ok [itemA]] Page.initial).currentTimelineItemIds ∧
    (loadTimeline exampleConfig (.notOk 500)
      (runPolls exampleConfig [.ok [itemA]] Page.initial)).1.timelineContainer =
      (runPolls exampleConfig [.ok [itemA]] Page.initial).timelineContainer :=
  ⟨rfl, by decide,
    loadTimeline_failure_keeps_render exampleConfig [.ok [itemA]] (.notOk 500) rfl (by decide)⟩

/-- C7, as stated, fails: after a load of `[a]` and a load of the empty list, a rejected
poll writes the error message, although items were loaded before it. -/
theorem loadTimeline_error_shown_after_earlier_load :
    itemsEverLoaded [.ok [itemA], .ok []] = true ∧
    (loadTimeline exampleConfig (.rejected (js "Failed to fetch"))
      (runPolls exampleConfig [.ok [itemA], .ok []] Page.initial)).2.errorShown = true ∧
    (loadTimeline exampleConfig (.rejected (js "Failed to fetch"))
      (runPolls exampleConfig [.ok [itemA], .ok []] Page.initial)).1.skeletonContent =
        .errorMessage := by
  decide

/-- C7, amended: after any sequence of polls from the initial page, a failed poll writes the
error message into the skeleton if and only if the known-id set is empty, that is when no
poll before it got an ok response or the most recent ok response had no items. -/
theorem loadTimeline_error_shown_iff (cfg : Config) (polls : List TimelineResponse)
    (r : TimelineResponse) (hfail : r.failed = true) :
    ((loadTimeline cfg r (runPolls cfg polls Page.initial)).2.errorShown = true ↔
      (runPolls cfg polls Page.initial).currentTimelineItemIds = []) ∧
    ((runPolls cfg polls Page.initial).currentTimelineItemIds = [] ↔
      lastLoaded polls [] = []) := by
  constructor
  · rw [loadTimeline_failed_errorShown cfg r _ hfail]
    simp
  · rw [runPolls_known cfg polls Page.initial [] rfl, setOf_eq_nil_iff, List.map_eq_nil_iff]

/-- Witness of C7 amended: a response with status 500 after a load of `[a]`. -/
theorem loadTimeline_error_shown_iff_witness :
    (TimelineResponse.notOk 500).failed = true ∧
    (((loadTimeline exampleConfig (.notOk 500)
        (runPolls exampleConfig [.ok [itemA]] Page.initial)).2.errorShown = true ↔
      (runPolls exampleConfig [.ok [itemA]] Page.initial).currentTimelineItemIds = []) ∧
    ((runPolls exampleConfig [.ok [itemA]] Page.initial).currentTimelineItemIds = [] ↔
      lastLoaded [.ok [itemA]] [] = [])) :=
  ⟨rfl, loadTimeline_error_shown_iff exampleConfig [.ok [itemA]] (.notOk 500) rfl⟩

/-! ## The claim submission form -/

/-- The input handler enables the submit button exactly when the untrimmed length of the
input reaches `MIN_CLAIM_LENGTH`. -/
theorem inputHandler_enabled_iff (cfg : Config) (s : Page) :
    (inputHandler cfg s).verifyNowBtnDisabled = false ↔
      cfg.MIN_CLAIM_LENGTH ≤ s.claimTextInputValue.length := by
  unfold inputHandler
  by_cases h : cfg.MIN_CLAIM_LENGTH ≤ s.claimTextInputValue.length <;> simp [h]

/-- C5: with `MIN_CLAIM_LENGTH = 20` and an input of nineteen letters and a space, the
trimmed length is 19, the input handler enables the submit button all the same, and the
submit handler then returns without a request. -/
theorem inputHandler_enables_on_padded_text :
    (trim paddedText).length = 19 ∧
    exampleConfig.MIN_CLAIM_LENGTH = 20 ∧
    (inputHandler exampleConfig (pageWithInput paddedText)).verifyNowBtnDisabled = false ∧
    (submitHandler exampleConfig (.ok (js "0123456789abcdef"))
      (inputHandler exampleConfig (pageWithInput paddedText))).2.fetches = [] := by
  decide

/-- C8: when the input text is shorter than `MIN_CLAIM_LENGTH`, the submit handler calls
nothing (no `fetch`) and leaves the page as it was. -/
theorem submitHandler_short_input_noop (cfg : Config) (r : SubmitResponse) (s : Page)
    (hshort : s.claimTextInputValue.length < cfg.MIN_CLAIM_LENGTH) :
    submitHandler cfg r s = (s, {}) ∧ (submitHandler cfg r s).2.fetches = [] := by
  have htrim : (trim s.claimTextInputValue).length < cfg.MIN_CLAIM_LENGTH :=
    lt_of_le_of_lt (trim_length_le _) hshort
  have hnoop : submitHandler cfg r s = (s, {}) := by
    unfold submitHandler
    simp only [htrim, if_true]
  exact ⟨hnoop, by rw [hnoop]⟩

/-- Witness of C8: a 9-character input with `MIN_CLAIM_LENGTH = 20`. -/
theorem submitHandler_short_input_noop_witness :
    (pageWithInput (js "too short")).claimTextInputValue.length <
      exampleConfig.MIN_CLAIM_LENGTH ∧
    submitHandler exampleConfig (.ok (js "0123456789abcdef")) (pageWithInput (js "too short")) =
      (pageWithInput (js "too short"), {}) ∧
    (submitHandler exampleConfig (.ok (js "0123456789abcdef"))
      (pageWithInput (js "too short"))).2.fetches = [] :=
  ⟨by decide, submitHandler_short_input_noop exampleConfig (.ok (js "0123456789abcdef"))
    (pageWithInput (js "too short")) (by decide)⟩

/-- C9: when the request of a submission fails, the classes of the modal are untouched,
the submit button is enabled with the label `Failed. Retry?`, one toast carries the error
message, and the known-id set and the timeline container are unchanged. -/
theorem submitHandler_failure (cfg : Config) (r : SubmitResponse) (s : Page)
    (hlen : cfg.MIN_CLAIM_LENGTH ≤ (trim s.claimTextInputValue).length)
    (hfail : r.failed = true) :
    (submitHandler cfg r s).2.fetches =
      [Request.postClaim (submitUrl cfg) (trim s.claimTextInputValue)] ∧
    (submitHandler cfg r s).1.claimModalHidden = s.claimModalHidden ∧
    (submitHandler cfg r s).1.claimModalFlex = s.claimModalFlex ∧
    (submitHandler cfg r s).1.verifyNowBtnDisabled = false ∧
    (submitHandler cfg r s).1.verifyNowBtnText = js "Failed. Retry?" ∧
    (submitHandler cfg r s).2.toasts =
      [(js "Failed to submit claim: " ++ r.errorMessage, js "DEBUNKED")] ∧
    (submitHandler cfg r s).2.timeouts = [] ∧
    (submitHandler cfg r s).1.currentTimelineItemIds = s.currentTimelineItemIds ∧
    (submitHandler cfg r s).1.timelineContainer = s.timelineContainer := by
  have hnot : ¬ (trim s.claimTextInputValue).length < cfg.MIN_CLAIM_LENGTH := by omega
  unfold submitHandler
  simp only [hnot, if_false]
  match r, hfail with
  | .rejected m, _ => simp [catchSubmit, SubmitResponse.errorMessage]
  | .notOk st tx (.error m), _ => simp [catchSubmit, SubmitResponse.errorMessage]
  | .notOk st tx (.ok b), _ => simp [catchSubmit, SubmitResponse.errorMessage]

/-- Witness of C9: a response with status 500 to a 26-character claim. -/
theorem submitHandler_failure_witness :
    exampleConfig.MIN_CLAIM_LENGTH ≤
      (trim (pageWithInput (js "The bridge on Main is open")).claimTextInputValue).length ∧
    (SubmitResponse.notOk 500 (js "Internal Server Error") (.ok (js "oops"))).failed = true ∧
    (submitHandler exampleConfig (.notOk 500 (js "Internal Server Error") (.ok (js "oops")))
      (pageWithInput (js "The bridge on Main is open"))).1.claimModalHidden = false ∧
    (submitHandler exampleConfig (.notOk 500 (js "Internal Server Error") (.ok (js "oops")))
      (pageWithInput (js "The bridge on Main is open"))).1.verifyNowBtnText =
        js "Failed. Retry?" ∧
    (submitHandler exampleConfig (.notOk 500 (js "Internal Server Error") (.ok (js "oops")))
      (pageWithInput (js "The bridge on Main is open"))).2.toasts =
        [(js "Failed to submit claim: Submission failed. Status: 500", js "DEBUNKED")] :=
  have h := submitHandler_failure exampleConfig
    (.notOk 500 (js "Internal Server Error") (.ok (js "oops")))
    (pageWithInput (js "The bridge on Main is open")) (by decide) rfl
  ⟨by decide, rfl, h.2.1, h.2.2.2.2.1, h.2.2.2.2.2.1.trans (by decide)⟩

/-- C10: on a successful submission the receipt text is the first 8 code units of the
returned id (the whole id when it has no more than 8) followed by `...`, the receipt is
made visible, and one timeout of 5000 ms is set, whose callback hides the modal. -/
theorem submitHandler_success (cfg : Config) (receiptId : JSString) (s : Page)
    (hlen : cfg.MIN_CLAIM_LENGTH ≤ (trim s.claimTextInputValue).length) :
    (submitHandler cfg (.ok receiptId) s).1.receiptIdText = receiptId.take 8 ++ js "..." ∧
    (receiptId.length ≤ 8 →
      (submitHandler cfg (.ok receiptId) s).1.receiptIdText = receiptId ++ js "...") ∧
    (submitHandler cfg (.ok receiptId) s).1.submissionReceiptHidden = false ∧
    (submitHandler cfg (.ok receiptId) s).2.timeouts = [5000] ∧
    (autoClose cfg (submitHandler cfg (.ok receiptId) s).1).claimModalHidden = true ∧
    (autoClose cfg (submitHandler cfg (.ok receiptId) s).1).claimModalFlex = false := by
  have hnot : ¬ (trim s.claimTextInputValue).length < cfg.MIN_CLAIM_LENGTH := by omega
  have hmodal : ∀ p : Page, (inputHandler cfg p).claimModalHidden = p.claimModalHidden ∧
      (inputHandler cfg p).claimModalFlex = p.claimModalFlex := by
    intro p
    unfold inputHandler
    by_cases h : cfg.MIN_CLAIM_LENGTH ≤ p.claimTextInputValue.length <;> simp [h]
  have htext : (submitHandler cfg (.ok receiptId) s).1.receiptIdText =
      receiptId.take 8 ++ js "..." := by
    simp [submitHandler, hnot, substring0]
  refine ⟨htext, fun h8 => ?_, ?_, ?_, ?_, ?_⟩
  · rw [htext, List.take_of_length_le h8]
  · simp [submitHandler, hnot]
  · simp [submitHandler, hnot]
  · unfold autoClose
    rw [(hmodal _).1]
  · unfold autoClose
    rw [(hmodal _).2]

/-- Witness of C10: the receipt id `0123456789abcdef` for a 26-character claim. -/
theorem submitHandler_success_witness :
    exampleConfig.MIN_CLAIM_LENGTH ≤
      (trim (pageWithInput (js "The bridge on Main is open")).claimTextInputValue).length ∧
    (submitHandler exampleConfig (.ok (js "0123456789abcdef"))
      (pageWithInput (js "The bridge on Main is open"))).1.receiptIdText = js "01234567..." ∧
    (submitHandler exampleConfig (.ok (js "0123456789abcdef"))
      (pageWithInput (js "The bridge on Main is open"))).2.timeouts = [5000] :=
  have h := submitHandler_success exampleConfig (js "0123456789abcdef")
    (pageWithInput (js "The bridge on Main is open")) (by decide)
  ⟨by decide, h.1.trans (by decide), h.2.2.2.1⟩

end Timeline
